import Mathlib

/-!
Verification of the Sentry device messaging layer
(`src/device/Sentry_Device/BluetoothHandler.cpp`) against its
natural-language specification.

The embedding below follows the source file closely.  The vendor BLE stack
and the ArduinoJson engine are external collaborators (spec section 1): JSON
documents are modelled as ordered field trees (ArduinoJson preserves insertion
order and the documents built by this file are at most two levels deep), the
serializer renders them to text through the narrow "serialize a tree of named
fields" interface, and inbound `deserializeJson` results are supplied as an
oracle value (`ParseResult`).  `float` sensor values are modelled by `Int`:
every claim under verification depends only on field presence and exact byte
reuse, never on decimal formatting, and the code compares floats only against
zero, which `Int` models with a decidable test.  Machine integers (`uint16_t`
CRC register, `uint32_t` sequence counter) are `Nat` with explicit reduction
modulo 2^16 / 2^32.
-/

namespace Sentry

/-- Modelled from the spec: `CRC_POLYNOMIAL` lives in the missing header
`BluetoothHandler.h`; the source comment and spec section 4.1 fix a CCITT
16-bit polynomial, MSB-first, initial register 0xFFFF. -/
def CRC_POLYNOMIAL : Nat := 0x1021

/-- Modelled from the spec: default (un-negotiated) BLE MTU from the missing
header; the conservative link default. -/
def BLE_DEFAULT_MTU : Nat := 23

/-- Modelled from the spec: the MTU value requested on connection, from the
missing header. -/
def BLE_MTU_REQUEST : Nat := 512

/-- Modelled from the spec: conservative single-frame fallback size from the
missing header, used when no negotiated MTU above the default is known. -/
def BLE_CHUNK_SIZE : Nat := 20

/-- Modelled from the spec: the absolute hard byte cap from the missing
header; a message above it is refused outright (spec sections 4.4 and 6). -/
def MAX_PACKET_SIZE : Nat := 512

/-- Modelled from the spec: command codes from the missing header.
`GET_STATUS` is pinned to 1 by spec section 8 (`{"command":1}` is GetStatus);
the others are assigned distinct codes in the order the spec lists them. -/
def CMD_GET_STATUS : Nat := 1

/-- Modelled from the spec: see `CMD_GET_STATUS`. -/
def CMD_SET_WIFI_SSID : Nat := 2

/-- Modelled from the spec: see `CMD_GET_STATUS`. -/
def CMD_SET_WIFI_PASSWORD : Nat := 3

/-- Modelled from the spec: see `CMD_GET_STATUS`. -/
def CMD_SET_API_ENDPOINT : Nat := 4

/-- Modelled from the spec: see `CMD_GET_STATUS`. -/
def CMD_RESET_DEVICE : Nat := 5

/-- Modelled from the spec: see `CMD_GET_STATUS`. -/
def CMD_CALIBRATE_SENSOR : Nat := 6

/-- Modelled from the spec: the error code named "invalid data" (parse
failure), from the missing header. -/
def BLE_ERROR_INVALID_DATA : Nat := 1

/-- Modelled from the spec: the error code named "invalid command" (missing
or unrecognized command), from the missing header. -/
def BLE_ERROR_INVALID_CMD : Nat := 2

/-- Modulus of the `uint32_t` sequence counter. -/
def UINT32_MOD : Nat := 4294967296

/-- One shift-and-conditionally-xor step of the CRC-16 inner loop
(`BluetoothHandler.cpp` lines 62-67), on a 16-bit register held as `Nat`. -/
def crcShift (crc : Nat) : Nat :=
  if crc &&& 0x8000 ≠ 0 then ((crc <<< 1) ^^^ CRC_POLYNOMIAL) % 65536
  else (crc <<< 1) % 65536

/-- Folding one input byte into the CRC register: xor the byte into the high
half, then run eight shift steps (`BluetoothHandler.cpp` lines 61-68). -/
def crcByte (crc b : Nat) : Nat :=
  crcShift^[8] ((crc ^^^ ((b % 256) <<< 8)) % 65536)

/-- CRC-16/CCITT over a byte buffer, initial register 0xFFFF
(`calculateCRC16`, `BluetoothHandler.cpp` lines 58-71). -/
def calculateCRC16 (data : List Nat) : Nat :=
  data.foldl crcByte 0xFFFF

/-- UTF-8 bytes of a rendered message, as the C `const char*` buffer the
source hands to `calculateCRC16`. -/
def strBytes (s : String) : List Nat :=
  s.toUTF8.toList.map (fun b => b.toNat)

/-- Primitive JSON values appearing in the documents this layer builds. -/
inductive JPrim where
  | null
  | bool (b : Bool)
  | num (i : Int)
  | str (s : String)
deriving Repr, DecidableEq

/-- A top-level field value: a primitive or one nested object of primitives
(the documents built by `BluetoothHandler.cpp` are at most two levels deep). -/
inductive JEntry where
  | prim (p : JPrim)
  | obj (fields : List (String × JPrim))
deriving Repr, DecidableEq

/-- An ordered JSON document, as a `StaticJsonDocument` with insertion-ordered
named fields. -/
structure JDoc where
  fields : List (String × JEntry)
deriving Repr, DecidableEq

/-- Rendering of a primitive value. -/
def serializeJPrim : JPrim → String
  | JPrim.null => "null"
  | JPrim.bool true => "true"
  | JPrim.bool false => "false"
  | JPrim.num i => toString i
  | JPrim.str s => "\"" ++ s ++ "\""

/-- Rendering of one `key:value` pair of a nested object. -/
def fieldTextP (kv : String × JPrim) : String :=
  "\"" ++ kv.1 ++ "\":" ++ serializeJPrim kv.2

/-- Comma-joined rendering of a nested object's fields. -/
def joinFieldsP : List (String × JPrim) → String
  | [] => ""
  | kv :: rest => fieldTextP kv ++ (if rest.isEmpty then "" else ",") ++ joinFieldsP rest

/-- Rendering of a top-level field value. -/
def serializeJEntry : JEntry → String
  | JEntry.prim p => serializeJPrim p
  | JEntry.obj fs => "\x7b" ++ joinFieldsP fs ++ "\x7d"

/-- Rendering of one top-level `key:value` pair. -/
def fieldText (kv : String × JEntry) : String :=
  "\"" ++ kv.1 ++ "\":" ++ serializeJEntry kv.2

/-- Comma-joined rendering of the top-level fields. -/
def joinFields : List (String × JEntry) → String
  | [] => ""
  | kv :: rest => fieldText kv ++ (if rest.isEmpty then "" else ",") ++ joinFields rest

/-- Rendering of a whole document, the `serializeJson` of the narrow JSON
interface: newline-free text, fields in insertion order. -/
def serializeJson (d : JDoc) : String :=
  "\x7b" ++ joinFields d.fields ++ "\x7d"

/-- Top-level field names of a document, in order. -/
def docKeys (d : JDoc) : List String :=
  d.fields.map Prod.fst

/-- Lookup of a field inside a nested object (first match, as ArduinoJson). -/
def lookupField (fs : List (String × JPrim)) (k : String) : Option JPrim :=
  (fs.find? (fun kv => kv.1 == k)).map (fun kv => kv.2)

/-- Lookup of a top-level entry of a document. -/
def lookupEntry (d : JDoc) (k : String) : Option JEntry :=
  (d.fields.find? (fun kv => kv.1 == k)).map (fun kv => kv.2)

/-- The mutable module state of `BluetoothHandler.cpp`: the file-scope
globals `deviceConnected`, `oldDeviceConnected`, `sequenceNumber`,
`commandReceived`, `receivedCommand` and `currentMTU`. -/
structure BTState where
  deviceConnected : Bool
  oldDeviceConnected : Bool
  sequenceNumber : Nat
  commandReceived : Bool
  receivedCommand : String
  currentMTU : Nat
deriving Repr, DecidableEq

/-- The `MyServerCallbacks::onConnect` transport callback: record the
connection, reset the sequence counter to 0, assume the requested MTU
(`BluetoothHandler.cpp` lines 25-35). -/
def onConnect (s : BTState) : BTState :=
  {s with deviceConnected := true, sequenceNumber := 0, currentMTU := BLE_MTU_REQUEST}

/-- The `MyServerCallbacks::onDisconnect` transport callback: record the
disconnection and fall back to the default MTU (lines 37-41). -/
def onDisconnect (s : BTState) : BTState :=
  {s with deviceConnected := false, currentMTU := BLE_DEFAULT_MTU}

/-- The `ConfigCharacteristicCallbacks::onWrite` callback: a non-empty write
stores the text and raises the pending-command flag (lines 46-54). -/
def onConfigWrite (s : BTState) (value : String) : BTState :=
  if value.length > 0 then {s with receivedCommand := value, commandReceived := true}
  else s

/-- The sequencer's `next()`: pre-increment of the `uint32_t` counter
(`getNextSequenceNumber`, lines 74-76); the new counter value is also the
returned sequence number. -/
def getNextSequenceNumber (seqNumber : Nat) : Nat :=
  (seqNumber + 1) % UINT32_MOD

/-- Outcome of `sendDataWithChunking`: the buffers handed to the BLE
`setValue`/`notify` primitive this call (at most one), and whether the local
oversize diagnostic warning was printed. -/
structure TxResult where
  frames : List String
  warned : Bool
deriving Repr, DecidableEq

/-- The safe single-frame budget of `sendDataWithChunking`
(`BluetoothHandler.cpp` lines 112-113): negotiated MTU minus 3 when a value
above the default is known, else the conservative fallback. -/
def safeSinglePacketSize (currentMTU : Nat) : Nat :=
  if currentMTU > BLE_DEFAULT_MTU then currentMTU - 3 else BLE_CHUNK_SIZE

/-- The transmission unit `sendDataWithChunking` (lines 88-137).
`charPresent` models `pChar != nullptr`; lengths are byte lengths of the
rendered text, as the Arduino `String::length`. Empty input or a missing
channel is a no-op; above `MAX_PACKET_SIZE` the message is dropped; within
the safe budget it goes out as one frame; between the budget and the cap it
still goes out as one best-effort frame with a local warning. -/
def sendDataWithChunking (charPresent : Bool) (currentMTU : Nat) (data : String) : TxResult :=
  if !charPresent || data.utf8ByteSize == 0 then TxResult.mk [] false
  else if data.utf8ByteSize > MAX_PACKET_SIZE then TxResult.mk [] false
  else if data.utf8ByteSize ≤ safeSinglePacketSize currentMTU then TxResult.mk [data] false
  else TxResult.mk [data] true

/-- Document of one Error message (`sendErrorResponse`, lines 145-153):
type, error_code, message, sequence, timestamp — the source adds no `crc`
field to this kind. -/
def mkErrorDoc (errorCode : Nat) (message : String) (seq now : Nat) : JDoc :=
  JDoc.mk
    [("type", JEntry.prim (JPrim.str "error")),
     ("error_code", JEntry.prim (JPrim.num errorCode)),
     ("message", JEntry.prim (JPrim.str message)),
     ("sequence", JEntry.prim (JPrim.num seq)),
     ("timestamp", JEntry.prim (JPrim.num now))]

/-- The two-pass checksum step shared by the four checksummed kinds
(e.g. lines 267-279): render the document once, CRC the rendered bytes,
append the `crc` field last. Returns the final document and the crc value. -/
def addCrc (d : JDoc) : JDoc × Nat :=
  let jsonData := serializeJson d
  let crc := calculateCRC16 (strBytes jsonData)
  (JDoc.mk (d.fields ++ [("crc", JEntry.prim (JPrim.num crc))]), crc)

/-- Receiver-side re-derivation of the checksum: strip the `crc` field from
the received document and CRC the re-rendered remainder (spec sections 3
and 8: "the receiver must strip/ignore the checksum field before re-deriving
it for verification"). -/
def removeCrcField (d : JDoc) : JDoc :=
  JDoc.mk (d.fields.filter (fun kv => kv.1 != "crc"))

/-- Receiver-side checksum over a received document with its `crc` stripped. -/
def rederiveCrc (d : JDoc) : Nat :=
  calculateCRC16 (strBytes (serializeJson (removeCrcField d)))

/-- Nested `sensor` object of a SensorReading (lines 249-265): fixed readings
first, then `status_code` only when the supplied code is non-negative, then
`status_message` only when a message pointer was supplied. -/
def sensorFields (ax ay az roll pitch : Int) (tiltDetected : Bool)
    (statusMessage : Option String) (statusCode : Int) : List (String × JPrim) :=
  [("ax", JPrim.num ax), ("ay", JPrim.num ay), ("az", JPrim.num az),
   ("roll", JPrim.num roll), ("pitch", JPrim.num pitch),
   ("tilt_detected", JPrim.bool tiltDetected)]
  ++ (if statusCode ≥ 0 then [("status_code", JPrim.num statusCode)] else [])
  ++ (match statusMessage with
      | some m => [("status_message", JPrim.str m)]
      | none => [])

/-- Pre-checksum SensorReading document (lines 243-265). -/
def buildSensorDoc (seq now : Nat) (ax ay az roll pitch : Int) (tiltDetected : Bool)
    (statusMessage : Option String) (statusCode : Int) : JDoc :=
  JDoc.mk
    [("type", JEntry.prim (JPrim.str "sensor_data")),
     ("sequence", JEntry.prim (JPrim.num seq)),
     ("timestamp", JEntry.prim (JPrim.num now)),
     ("sensor", JEntry.obj (sensorFields ax ay az roll pitch tiltDetected statusMessage statusCode))]

/-- Nested `gps` object of a PositionFix (lines 312-336): fix and satellite
count, optional status fields, then the coordinate triple — values only when
`fix` holds and both coordinates are non-zero (altitude additionally only
when itself non-zero), else three explicit nulls. -/
def gpsFields (gpsFix : Bool) (satellites : Int) (latitude longitude altitude : Int)
    (statusMessage : Option String) (statusCode : Int) : List (String × JPrim) :=
  [("fix", JPrim.bool gpsFix), ("satellites", JPrim.num satellites)]
  ++ (if statusCode ≥ 0 then [("status_code", JPrim.num statusCode)] else [])
  ++ (match statusMessage with
      | some m => [("status_message", JPrim.str m)]
      | none => [])
  ++ (if gpsFix = true ∧ latitude ≠ 0 ∧ longitude ≠ 0 then
        [("latitude", JPrim.num latitude), ("longitude", JPrim.num longitude)]
        ++ (if altitude ≠ 0 then [("altitude", JPrim.num altitude)] else [])
      else
        [("latitude", JPrim.null), ("longitude", JPrim.null), ("altitude", JPrim.null)])

/-- Pre-checksum PositionFix document (lines 306-336). -/
def buildGPSDoc (seq now : Nat) (gpsFix : Bool) (satellites : Int)
    (latitude longitude altitude : Int) (statusMessage : Option String)
    (statusCode : Int) : JDoc :=
  JDoc.mk
    [("type", JEntry.prim (JPrim.str "gps_data")),
     ("sequence", JEntry.prim (JPrim.num seq)),
     ("timestamp", JEntry.prim (JPrim.num now)),
     ("gps", JEntry.obj (gpsFields gpsFix satellites latitude longitude altitude statusMessage statusCode))]

/-- Pre-checksum DeviceStatus document (lines 376-385); `ble_connected` is
hard-coded true because the message can only leave over an active link. -/
def buildDeviceStatusDoc (seq now : Nat) (wifiConnected gpsFix : Bool)
    (batteryLevel : Int) : JDoc :=
  JDoc.mk
    [("type", JEntry.prim (JPrim.str "device_status")),
     ("sequence", JEntry.prim (JPrim.num seq)),
     ("timestamp", JEntry.prim (JPrim.num now)),
     ("status", JEntry.obj
       [("wifi_connected", JPrim.bool wifiConnected),
        ("gps_fix", JPrim.bool gpsFix),
        ("battery_level", JPrim.num batteryLevel),
        ("ble_connected", JPrim.bool true)])]

/-- Pre-checksum CommandResponse document (lines 502-508). -/
def buildCommandResponseDoc (cmdType : Nat) (cmdName : String) (seq now : Nat) : JDoc :=
  JDoc.mk
    [("type", JEntry.prim (JPrim.str "command_response")),
     ("command", JEntry.prim (JPrim.num cmdType)),
     ("command_name", JEntry.prim (JPrim.str cmdName)),
     ("status", JEntry.prim (JPrim.str "success")),
     ("sequence", JEntry.prim (JPrim.num seq)),
     ("timestamp", JEntry.prim (JPrim.num now))]

/-- The `sendErrorResponse` entry point (lines 140-161): no-op unless
connected with the config characteristic present; otherwise one sequencer
tick and one Error document handed to the transmission unit (each emitted
document `d` is transmitted as `sendDataWithChunking ch mtu (serializeJson
d)`; the handoff is modelled at document level so field claims can inspect
it). -/
def sendErrorResponse (s : BTState) (cfgCharPresent : Bool) (now : Nat)
    (errorCode : Nat) (message : String) : BTState × List JDoc :=
  if !s.deviceConnected || !cfgCharPresent then (s, [])
  else
    let seq := getNextSequenceNumber s.sequenceNumber
    ({s with sequenceNumber := seq}, [mkErrorDoc errorCode message seq now])

/-- The `sendSensorData` entry point (lines 237-297): guard, one sequencer
tick, two-pass checksum, one document handed to the transmission unit. -/
def sendSensorData (s : BTState) (charPresent : Bool) (now : Nat)
    (ax ay az roll pitch : Int) (tiltDetected : Bool)
    (statusMessage : Option String) (statusCode : Int) : BTState × List JDoc :=
  if !s.deviceConnected || !charPresent then (s, [])
  else
    let seq := getNextSequenceNumber s.sequenceNumber
    let doc := (addCrc (buildSensorDoc seq now ax ay az roll pitch tiltDetected statusMessage statusCode)).1
    ({s with sequenceNumber := seq}, [doc])

/-- The `sendGPSData` entry point (lines 300-368). -/
def sendGPSData (s : BTState) (charPresent : Bool) (now : Nat)
    (gpsFix : Bool) (satellites : Int) (latitude longitude altitude : Int)
    (statusMessage : Option String) (statusCode : Int) : BTState × List JDoc :=
  if !s.deviceConnected || !charPresent then (s, [])
  else
    let seq := getNextSequenceNumber s.sequenceNumber
    let doc := (addCrc (buildGPSDoc seq now gpsFix satellites latitude longitude altitude statusMessage statusCode)).1
    ({s with sequenceNumber := seq}, [doc])

/-- The `sendDeviceStatus` entry point (lines 371-415). -/
def sendDeviceStatus (s : BTState) (charPresent : Bool) (now : Nat)
    (wifiConnected gpsFix : Bool) (batteryLevel : Int) : BTState × List JDoc :=
  if !s.deviceConnected || !charPresent then (s, [])
  else
    let seq := getNextSequenceNumber s.sequenceNumber
    let doc := (addCrc (buildDeviceStatusDoc seq now wifiConnected gpsFix batteryLevel)).1
    ({s with sequenceNumber := seq}, [doc])

/-- Result of `deserializeJson` on the pending inbound text, supplied as an
oracle for the external ArduinoJson engine: a parse failure, or a parsed
document queried for its `command` (as a non-negative integer) and `value`
fields. -/
inductive ParseResult where
  | err
  | ok (command : Option Nat) (value : Option String)
deriving Repr, DecidableEq

/-- The `switch (cmdType)` name table of `processBluetoothCommands`
(lines 448-499): the human-readable name of each recognized code, `none` for
the default (unknown) branch. -/
def commandName (cmdType : Nat) : Option String :=
  if cmdType = CMD_GET_STATUS then some "GET_STATUS"
  else if cmdType = CMD_SET_WIFI_SSID then some "SET_WIFI_SSID"
  else if cmdType = CMD_SET_WIFI_PASSWORD then some "SET_WIFI_PASSWORD"
  else if cmdType = CMD_SET_API_ENDPOINT then some "SET_API_ENDPOINT"
  else if cmdType = CMD_RESET_DEVICE then some "RESET_DEVICE"
  else if cmdType = CMD_CALIBRATE_SENSOR then some "CALIBRATE_SENSOR"
  else none

/-- The command processor `processBluetoothCommands` (lines 418-531).
`parsed` is the oracle result of `deserializeJson` on `s.receivedCommand`;
the `uint8_t` cast of the `command` field is the reduction modulo 256.  The
`value` key is only probed by stubbed TODO branches (no observable effect).
Returns the new state, the documents handed to the transmission unit, and
whether `ESP.restart()` was reached (the reset path never returns: the
pending text is not cleared and no response is built). -/
def processBluetoothCommands (s : BTState) (cfgCharPresent : Bool) (now : Nat)
    (parsed : ParseResult) : BTState × List JDoc × Bool :=
  if !s.commandReceived || s.receivedCommand.length == 0 then (s, [], false)
  else
    let s1 := {s with commandReceived := false}
    match parsed with
    | ParseResult.err =>
      let r := sendErrorResponse s1 cfgCharPresent now BLE_ERROR_INVALID_DATA "Invalid JSON format"
      ({r.1 with receivedCommand := ""}, r.2, false)
    | ParseResult.ok none _ =>
      let r := sendErrorResponse s1 cfgCharPresent now BLE_ERROR_INVALID_CMD "Missing command field"
      ({r.1 with receivedCommand := ""}, r.2, false)
    | ParseResult.ok (some c) _ =>
      let cmdType := c % 256
      match commandName cmdType with
      | none =>
        let r := sendErrorResponse s1 cfgCharPresent now BLE_ERROR_INVALID_CMD "Unknown command type"
        ({r.1 with receivedCommand := ""}, r.2, false)
      | some name =>
        if cmdType = CMD_RESET_DEVICE then
          (s1, [], true)
        else
          let seq := getNextSequenceNumber s1.sequenceNumber
          let doc := (addCrc (buildCommandResponseDoc cmdType name seq now)).1
          ({s1 with sequenceNumber := seq, receivedCommand := ""},
           if cfgCharPresent then [doc] else [], false)

/-- Outcome of one main-cycle call of `handleBluetoothReconnection`. -/
structure CycleResult where
  state : BTState
  advertised : Bool
  emitted : List JDoc
  restarted : Bool
deriving Repr, DecidableEq

/-- The connection-lifecycle cycle `handleBluetoothReconnection`
(lines 534-549): on the disconnect edge (now disconnected, previously
connected) restart advertising once and record the new state; on the connect
edge just record it; every cycle poll the command processor. -/
def handleBluetoothReconnection (s : BTState) (cfgCharPresent : Bool) (now : Nat)
    (parsed : ParseResult) : CycleResult :=
  let p1 :=
    if !s.deviceConnected && s.oldDeviceConnected then
      ({s with oldDeviceConnected := s.deviceConnected}, true)
    else (s, false)
  let s2 :=
    if p1.1.deviceConnected && !p1.1.oldDeviceConnected then
      {p1.1 with oldDeviceConnected := p1.1.deviceConnected}
    else p1.1
  let r := processBluetoothCommands s2 cfgCharPresent now parsed
  CycleResult.mk r.1 p1.2 r.2.1 r.2.2

/-- Abstract emission of one message while connected, for the sequencing
claim: exactly the sequencer effect every sender performs once its guard
passes (one `getNextSequenceNumber` tick, the new value stamped into the
message's `sequence` field). -/
def emitSeq (s : BTState) : BTState × Nat :=
  let n := getNextSequenceNumber s.sequenceNumber
  ({s with sequenceNumber := n}, n)

/-- Sequence numbers of `n` successive emissions. -/
def emitSeqN : Nat → BTState → BTState × List Nat
  | 0, s => (s, [])
  | n+1, s =>
    let r := emitSeq s
    let r2 := emitSeqN n r.1
    (r2.1, r.2 :: r2.2)

/-- A named field occurs in a rendered message: the token `"key":` appears in
the text. -/
def renderedHasField (txt k : String) : Prop :=
  ("\"" ++ k ++ "\":").data <:+: txt.data

instance (txt k : String) : Decidable (renderedHasField txt k) := by
  unfold renderedHasField; infer_instance

theorem string_length_eq_zero_iff (s : String) : s.length = 0 ↔ s = "" := by
  constructor
  · intro h
    cases s with
    | mk data =>
      cases data with
      | nil => rfl
      | cons a l => simp [String.length] at h
  · intro h
    subst h
    rfl

theorem fieldText_eq (kv : String × JEntry) :
    fieldText kv = ("\"" ++ kv.1 ++ "\":") ++ serializeJEntry kv.2 := by
  unfold fieldText
  rw [String.append_assoc, String.append_assoc]

theorem string_infix_append_left (a : String) {pat r : String}
    (h : pat.data <:+: r.data) : pat.data <:+: (a ++ r).data := by
  rw [String.data_append]
  exact h.trans (List.suffix_append _ _).isInfix

theorem string_infix_append_right (b : String) {pat r : String}
    (h : pat.data <:+: r.data) : pat.data <:+: (r ++ b).data := by
  rw [String.data_append]
  exact h.trans (List.prefix_append _ _).isInfix

theorem string_infix_self_append (pat b : String) : pat.data <:+: (pat ++ b).data := by
  rw [String.data_append]
  exact (List.prefix_append _ _).isInfix

theorem infix_joinFields (k : String) (fs : List (String × JEntry))
    (h : k ∈ fs.map Prod.fst) :
    ("\"" ++ k ++ "\":").data <:+: (joinFields fs).data := by
  induction fs with
  | nil => simp at h
  | cons kv rest ih =>
    rw [List.map_cons, List.mem_cons] at h
    simp only [joinFields]
    rcases h with h | h
    · refine string_infix_append_right _ (string_infix_append_right _ ?_)
      subst h
      rw [fieldText_eq]
      exact string_infix_self_append _ _
    · exact string_infix_append_left _ (ih h)

theorem hasField_of_mem (d : JDoc) (k : String) (h : k ∈ docKeys d) :
    renderedHasField (serializeJson d) k := by
  unfold renderedHasField serializeJson
  exact string_infix_append_right _ (string_infix_append_left _ (infix_joinFields k d.fields h))

theorem removeCrcField_addCrc (d : JDoc) (h : "crc" ∉ docKeys d) :
    removeCrcField (addCrc d).1 = d := by
  unfold removeCrcField addCrc
  rw [List.filter_append]
  have h1 : d.fields.filter (fun kv => kv.1 != "crc") = d.fields := by
    refine List.filter_eq_self.mpr ?_
    intro kv hkv
    refine bne_iff_ne.mpr ?_
    intro hk
    exact h (hk ▸ List.mem_map_of_mem Prod.fst hkv)
  rw [h1]
  simp

theorem rederive_addCrc (d : JDoc) (h : "crc" ∉ docKeys d) :
    rederiveCrc (addCrc d).1 = (addCrc d).2 := by
  unfold rederiveCrc
  rw [removeCrcField_addCrc d h]
  rfl

theorem processPreservesOld (s : BTState) (cfg : Bool) (now : Nat) (p : ParseResult) :
    (processBluetoothCommands s cfg now p).1.oldDeviceConnected = s.oldDeviceConnected := by
  unfold processBluetoothCommands sendErrorResponse
  split
  · rfl
  · cases p with
    | err => dsimp only; split <;> rfl
    | ok c v =>
      cases c with
      | none => dsimp only; split <;> rfl
      | some c =>
        dsimp only
        cases commandName (c % 256) with
        | none => dsimp only; split <;> rfl
        | some name => dsimp only; split <;> rfl

theorem processPreservesConnected (s : BTState) (cfg : Bool) (now : Nat) (p : ParseResult) :
    (processBluetoothCommands s cfg now p).1.deviceConnected = s.deviceConnected := by
  unfold processBluetoothCommands sendErrorResponse
  split
  · rfl
  · cases p with
    | err => dsimp only; split <;> rfl
    | ok c v =>
      cases c with
      | none => dsimp only; split <;> rfl
      | some c =>
        dsimp only
        cases commandName (c % 256) with
        | none => dsimp only; split <;> rfl
        | some name => dsimp only; split <;> rfl

theorem emitSeqN_range (n : Nat) : ∀ (s : BTState),
    s.sequenceNumber + n < UINT32_MOD →
    (emitSeqN n s).2 = List.range' (s.sequenceNumber + 1) n 1 ∧
    (emitSeqN n s).1.sequenceNumber = s.sequenceNumber + n := by
  induction n with
  | zero => intro s _; exact ⟨rfl, rfl⟩
  | succ n ih =>
    intro s h
    have h1 : s.sequenceNumber + 1 < UINT32_MOD := by omega
    have hmod : getNextSequenceNumber s.sequenceNumber = s.sequenceNumber + 1 :=
      Nat.mod_eq_of_lt h1
    have hstep : (emitSeq s).1.sequenceNumber = s.sequenceNumber + 1 := by
      simp [emitSeq, hmod]
    have ih2 := ih (emitSeq s).1 (by rw [hstep]; omega)
    constructor
    · show (emitSeq s).2 :: (emitSeqN n (emitSeq s).1).2 = _
      rw [List.range'_succ]
      have hv : (emitSeq s).2 = s.sequenceNumber + 1 := by simp [emitSeq, hmod]
      rw [hv, ih2.1, hstep]
    · show (emitSeqN n (emitSeq s).1).1.sequenceNumber = _
      rw [ih2.2, hstep]
      omega

/-- C2: the sequencer is 1-based and strictly increasing by 1 within a
connection epoch — after a connect the counter is reset to 0 and `n`
successive emissions carry exactly 1, 2, …, n (within the u32 range); in
particular, after a disconnect followed by a reconnect the next emitted
message has sequence 1. -/
theorem sequenceNumbersResetAndIncrease (s : BTState) (n : Nat) (h : n < UINT32_MOD) :
    (onConnect s).sequenceNumber = 0 ∧
    (emitSeqN n (onConnect s)).2 = List.range' 1 n 1 ∧
    (emitSeqN n (onConnect (onDisconnect s))).2 = List.range' 1 n 1 ∧
    (emitSeq (onConnect (onDisconnect s))).2 = 1 ∧
    (∀ now : Nat, sendSensorData (onConnect (onDisconnect s)) true now 0 0 0 0 0 false none (-1) =
       ({onConnect (onDisconnect s) with sequenceNumber := 1},
        [(addCrc (buildSensorDoc 1 now 0 0 0 0 0 false none (-1))).1])) := by
  have h1 : (onConnect s).sequenceNumber = 0 := rfl
  have h1' : (onConnect (onDisconnect s)).sequenceNumber = 0 := rfl
  have h2 := emitSeqN_range n (onConnect s) (by rw [h1]; omega)
  have h3 := emitSeqN_range n (onConnect (onDisconnect s)) (by rw [h1']; omega)
  refine ⟨h1, ?_, ?_, ?_, ?_⟩
  · rw [h2.1]
    simp [h1]
  · rw [h3.1]
    simp [h1']
  · simp [emitSeq, getNextSequenceNumber, h1', UINT32_MOD]
  · intro now
    simp [sendSensorData, onConnect, onDisconnect, getNextSequenceNumber, UINT32_MOD]

/-- Witness for C2 at a concrete state: after a disconnect and reconnect of
a session whose counter stood at 41, three emissions carry 1, 2, 3. -/
theorem sequenceNumbersResetAndIncrease_witness :
    (emitSeqN 3 (onConnect (onDisconnect (BTState.mk true false 41 false "" 23)))).2
      = List.range' 1 3 1 :=
  (sequenceNumbersResetAndIncrease (BTState.mk true false 41 false "" 23) 3
    (by decide)).2.2.1

/-- C3: for every message kind that carries a `crc` field (sensor, position,
device-status, command-response), stripping the checksum field from the
transmitted document and re-deriving the 16-bit checksum over the re-rendered
text equals the transmitted crc value (the builder computed it over exactly
the body rendered without the checksum field). -/
theorem checksumRoundTrip (seq now : Nat) (ax ay az roll pitch : Int) (tilt : Bool)
    (sm : Option String) (sc : Int) (gfix : Bool) (sats lat lon alt : Int)
    (wifi gfix2 : Bool) (batt : Int) (c : Nat) (nm : String) :
    rederiveCrc (addCrc (buildSensorDoc seq now ax ay az roll pitch tilt sm sc)).1
      = (addCrc (buildSensorDoc seq now ax ay az roll pitch tilt sm sc)).2 ∧
    rederiveCrc (addCrc (buildGPSDoc seq now gfix sats lat lon alt sm sc)).1
      = (addCrc (buildGPSDoc seq now gfix sats lat lon alt sm sc)).2 ∧
    rederiveCrc (addCrc (buildDeviceStatusDoc seq now wifi gfix2 batt)).1
      = (addCrc (buildDeviceStatusDoc seq now wifi gfix2 batt)).2 ∧
    rederiveCrc (addCrc (buildCommandResponseDoc c nm seq now)).1
      = (addCrc (buildCommandResponseDoc c nm seq now)).2 := by
  refine ⟨rederive_addCrc _ ?_, rederive_addCrc _ ?_, rederive_addCrc _ ?_,
    rederive_addCrc _ ?_⟩ <;>
    (simp [docKeys, buildSensorDoc, buildGPSDoc, buildDeviceStatusDoc,
      buildCommandResponseDoc]; try decide)

/-- C10: every sender called while disconnected, or with its target
characteristic null, is a complete no-op — the state (sequencer included) is
unchanged and nothing is handed to the transmission unit. -/
theorem disconnectedSendsAreNoOps (s : BTState) (charP : Bool) (now : Nat)
    (ax ay az roll pitch : Int) (tilt : Bool) (sm : Option String) (sc : Int)
    (gfix : Bool) (sats lat lon alt : Int) (wifi gfix2 : Bool) (batt : Int)
    (ec : Nat) (msg : String)
    (h : s.deviceConnected = false ∨ charP = false) :
    sendSensorData s charP now ax ay az roll pitch tilt sm sc = (s, []) ∧
    sendGPSData s charP now gfix sats lat lon alt sm sc = (s, []) ∧
    sendDeviceStatus s charP now wifi gfix2 batt = (s, []) ∧
    sendErrorResponse s charP now ec msg = (s, []) := by
  have hg : (!s.deviceConnected || !charP) = true := by
    rcases h with h | h <;> simp [h]
  refine ⟨?_, ?_, ?_, ?_⟩ <;>
    simp [sendSensorData, sendGPSData, sendDeviceStatus, sendErrorResponse, hg]

/-- Witness for C10 at a concrete disconnected state. -/
theorem disconnectedSendsAreNoOps_witness :
    sendSensorData (BTState.mk false false 5 false "" 23) true 0 1 2 3 4 5 true none (-1)
      = (BTState.mk false false 5 false "" 23, []) :=
  (disconnectedSendsAreNoOps (BTState.mk false false 5 false "" 23) true 0
    1 2 3 4 5 true none (-1) false 0 0 0 0 false false 0 0 "x" (Or.inl rfl)).1

/-- C4: the transmission unit on a non-empty input with an available channel:
a message over the hard cap is dropped and never handed to the transmission
primitive; one within the safe single-frame budget goes out as exactly one
frame without warning; one between the budget and the cap goes out as exactly
one best-effort frame with the local diagnostic warning; in every case at
most one transmission per call and no multi-frame splitting. -/
theorem transmissionSizePolicy (mtu : Nat) (data : String)
    (h : data.utf8ByteSize ≠ 0) :
    (sendDataWithChunking true mtu data).frames.length ≤ 1 ∧
    (MAX_PACKET_SIZE < data.utf8ByteSize →
       sendDataWithChunking true mtu data = TxResult.mk [] false) ∧
    (data.utf8ByteSize ≤ MAX_PACKET_SIZE →
       data.utf8ByteSize ≤ safeSinglePacketSize mtu →
       sendDataWithChunking true mtu data = TxResult.mk [data] false) ∧
    (data.utf8ByteSize ≤ MAX_PACKET_SIZE →
       safeSinglePacketSize mtu < data.utf8ByteSize →
       sendDataWithChunking true mtu data = TxResult.mk [data] true) := by
  have h0 : (data.utf8ByteSize == 0) = false := by simpa using h
  refine ⟨?_, ?_, ?_, ?_⟩
  · simp only [sendDataWithChunking, h0]
    split_ifs <;> simp
  · intro hgt
    simp [sendDataWithChunking, h0, hgt]
  · intro hle hsafe
    simp [sendDataWithChunking, h0, Nat.not_lt.mpr hle, hsafe]
  · intro hle hlt
    simp [sendDataWithChunking, h0, Nat.not_lt.mpr hle, Nat.not_le.mpr hlt]

/-- Witness for C4 at concrete inputs: a 3-byte message at a negotiated MTU
of 512 goes out as exactly one frame without warning. -/
theorem transmissionSizePolicy_witness :
    sendDataWithChunking true 512 "abc" = TxResult.mk ["abc"] false :=
  (transmissionSizePolicy 512 "abc" (by decide)).2.2.1 (by decide) (by decide)

/-- Coordinate lookups of `gpsFields` when the fix condition holds. -/
theorem gps_lookup_pos (gfix : Bool) (sats : Int) (lat lon alt : Int)
    (sm : Option String) (sc : Int) (h : gfix = true ∧ lat ≠ 0 ∧ lon ≠ 0) :
    lookupField (gpsFields gfix sats lat lon alt sm sc) "latitude" = some (JPrim.num lat) ∧
    lookupField (gpsFields gfix sats lat lon alt sm sc) "longitude" = some (JPrim.num lon) ∧
    lookupField (gpsFields gfix sats lat lon alt sm sc) "altitude"
      = (if alt ≠ 0 then some (JPrim.num alt) else none) := by
  rcases sm with _ | m <;> by_cases hsc : sc ≥ 0 <;> by_cases halt : alt ≠ 0 <;>
    simp [gpsFields, lookupField, h, hsc, halt]

/-- Coordinate lookups of `gpsFields` when the fix condition fails. -/
theorem gps_lookup_neg (gfix : Bool) (sats : Int) (lat lon alt : Int)
    (sm : Option String) (sc : Int) (h : ¬(gfix = true ∧ lat ≠ 0 ∧ lon ≠ 0)) :
    lookupField (gpsFields gfix sats lat lon alt sm sc) "latitude" = some JPrim.null ∧
    lookupField (gpsFields gfix sats lat lon alt sm sc) "longitude" = some JPrim.null ∧
    lookupField (gpsFields gfix sats lat lon alt sm sc) "altitude" = some JPrim.null := by
  rcases sm with _ | m <;> by_cases hsc : sc ≥ 0 <;>
    simp [gpsFields, lookupField, h, hsc]

/-- C6: the PositionFix coordinate triple carries values only when `fix` is
true and both coordinates are non-zero; in every other case all three fields
are serialized as explicit nulls — in particular whenever `fix` is false,
regardless of the other fields. -/
theorem gpsCoordinatePresence (gfix : Bool) (sats : Int) (lat lon alt : Int)
    (sm : Option String) (sc : Int) :
    (¬(gfix = true ∧ lat ≠ 0 ∧ lon ≠ 0) →
       lookupField (gpsFields gfix sats lat lon alt sm sc) "latitude" = some JPrim.null ∧
       lookupField (gpsFields gfix sats lat lon alt sm sc) "longitude" = some JPrim.null ∧
       lookupField (gpsFields gfix sats lat lon alt sm sc) "altitude" = some JPrim.null) ∧
    (gfix = false →
       lookupField (gpsFields gfix sats lat lon alt sm sc) "latitude" = some JPrim.null ∧
       lookupField (gpsFields gfix sats lat lon alt sm sc) "longitude" = some JPrim.null ∧
       lookupField (gpsFields gfix sats lat lon alt sm sc) "altitude" = some JPrim.null) ∧
    (∀ p, lookupField (gpsFields gfix sats lat lon alt sm sc) "latitude" = some p →
       p ≠ JPrim.null → gfix = true ∧ lat ≠ 0 ∧ lon ≠ 0) ∧
    (∀ p, lookupField (gpsFields gfix sats lat lon alt sm sc) "longitude" = some p →
       p ≠ JPrim.null → gfix = true ∧ lat ≠ 0 ∧ lon ≠ 0) ∧
    (∀ p, lookupField (gpsFields gfix sats lat lon alt sm sc) "altitude" = some p →
       p ≠ JPrim.null → gfix = true ∧ lat ≠ 0 ∧ lon ≠ 0) := by
  by_cases hc : gfix = true ∧ lat ≠ 0 ∧ lon ≠ 0
  · have hl := gps_lookup_pos gfix sats lat lon alt sm sc hc
    refine ⟨fun h => absurd hc h, ?_, ?_, ?_, ?_⟩
    · intro h
      rw [h] at hc
      simp at hc
    · intro p _ _
      exact hc
    · intro p _ _
      exact hc
    · intro p _ _
      exact hc
  · have hl := gps_lookup_neg gfix sats lat lon alt sm sc hc
    refine ⟨fun _ => hl, fun _ => hl, ?_, ?_, ?_⟩
    · intro p hp hnull
      rw [hl.1] at hp
      cases hp
      exact absurd rfl hnull
    · intro p hp hnull
      rw [hl.2.1] at hp
      cases hp
      exact absurd rfl hnull
    · intro p hp hnull
      rw [hl.2.2] at hp
      cases hp
      exact absurd rfl hnull

/-- Witness for C6 at a concrete no-fix reading: `fix = false` with non-zero
coordinates still serializes the whole triple as nulls. -/
theorem gpsCoordinatePresence_witness :
    lookupField (gpsFields false 4 7 8 9 none (-1)) "latitude" = some JPrim.null :=
  ((gpsCoordinatePresence false 4 7 8 9 none (-1)).2.1 rfl).1

/-- C7: the SensorReading optional status fields are omitted entirely when
unset (`status_code` negative, `status_message` absent) — never emitted as
null or zero — and carry exactly the supplied value when set. -/
theorem sensorOptionalFields (ax ay az roll pitch : Int) (tilt : Bool)
    (sm : Option String) (sc : Int) :
    (sc < 0 →
       lookupField (sensorFields ax ay az roll pitch tilt sm sc) "status_code" = none) ∧
    (sm = none →
       lookupField (sensorFields ax ay az roll pitch tilt sm sc) "status_message" = none) ∧
    (0 ≤ sc →
       lookupField (sensorFields ax ay az roll pitch tilt sm sc) "status_code"
         = some (JPrim.num sc)) ∧
    (∀ m, sm = some m →
       lookupField (sensorFields ax ay az roll pitch tilt sm sc) "status_message"
         = some (JPrim.str m)) := by
  refine ⟨?_, ?_, ?_, ?_⟩
  · intro hneg
    rcases sm with _ | m <;>
      simp [sensorFields, lookupField, Int.not_le.mpr hneg]
  · intro hnone
    subst hnone
    by_cases hsc : sc ≥ 0 <;> simp [sensorFields, lookupField, hsc]
  · intro hpos
    rcases sm with _ | m <;>
      simp [sensorFields, lookupField, Int.le_iff_lt_or_eq, hpos]
  · intro m hm
    subst hm
    by_cases hsc : sc ≥ 0 <;> simp [sensorFields, lookupField, hsc]

/-- Witness for C7 at a concrete reading built with both status fields
unset: `status_code` is absent from the serialized sensor object. -/
theorem sensorOptionalFields_witness :
    lookupField (sensorFields 1 2 3 4 5 true none (-1)) "status_code" = none :=
  (sensorOptionalFields 1 2 3 4 5 true none (-1)).1 (by decide)

set_option maxRecDepth 4000 in
/-- C1 counterexample: the rendered Error message at a concrete input carries
`sequence` and `timestamp` but no checksum field in its rendered text — so
the claim that messages of every kind (error included) carry a checksum
field fails on the error kind. -/
theorem errorMessageLacksChecksum :
    renderedHasField (serializeJson (mkErrorDoc 1 "Invalid JSON format" 1 0)) "sequence" ∧
    renderedHasField (serializeJson (mkErrorDoc 1 "Invalid JSON format" 1 0)) "timestamp" ∧
    ¬ renderedHasField (serializeJson (mkErrorDoc 1 "Invalid JSON format" 1 0)) "crc" := by
  refine ⟨?_, ?_, ?_⟩ <;> decide

/-- C1 (amended): every message emitted by the Packet Builder carries a
`sequence` and a `timestamp` field in its rendered text; the sensor,
position, device-status and command-response kinds additionally carry the
`crc` checksum field; the error kind carries no checksum field. -/
theorem packetFieldDiscipline (seq now : Nat) (ax ay az roll pitch : Int)
    (tilt : Bool) (sm : Option String) (sc : Int) (gfix : Bool)
    (sats lat lon alt : Int) (wifi gfix2 : Bool) (batt : Int) (c : Nat)
    (nm : String) (ec : Nat) (msg : String) :
    (renderedHasField (serializeJson (addCrc (buildSensorDoc seq now ax ay az roll pitch tilt sm sc)).1) "sequence" ∧
     renderedHasField (serializeJson (addCrc (buildSensorDoc seq now ax ay az roll pitch tilt sm sc)).1) "timestamp" ∧
     renderedHasField (serializeJson (addCrc (buildSensorDoc seq now ax ay az roll pitch tilt sm sc)).1) "crc") ∧
    (renderedHasField (serializeJson (addCrc (buildGPSDoc seq now gfix sats lat lon alt sm sc)).1) "sequence" ∧
     renderedHasField (serializeJson (addCrc (buildGPSDoc seq now gfix sats lat lon alt sm sc)).1) "timestamp" ∧
     renderedHasField (serializeJson (addCrc (buildGPSDoc seq now gfix sats lat lon alt sm sc)).1) "crc") ∧
    (renderedHasField (serializeJson (addCrc (buildDeviceStatusDoc seq now wifi gfix2 batt)).1) "sequence" ∧
     renderedHasField (serializeJson (addCrc (buildDeviceStatusDoc seq now wifi gfix2 batt)).1) "timestamp" ∧
     renderedHasField (serializeJson (addCrc (buildDeviceStatusDoc seq now wifi gfix2 batt)).1) "crc") ∧
    (renderedHasField (serializeJson (addCrc (buildCommandResponseDoc c nm seq now)).1) "sequence" ∧
     renderedHasField (serializeJson (addCrc (buildCommandResponseDoc c nm seq now)).1) "timestamp" ∧
     renderedHasField (serializeJson (addCrc (buildCommandResponseDoc c nm seq now)).1) "crc") ∧
    (renderedHasField (serializeJson (mkErrorDoc ec msg seq now)) "sequence" ∧
     renderedHasField (serializeJson (mkErrorDoc ec msg seq now)) "timestamp" ∧
     "crc" ∉ docKeys (mkErrorDoc ec msg seq now)) := by
  refine ⟨⟨hasField_of_mem _ _ ?_, hasField_of_mem _ _ ?_, hasField_of_mem _ _ ?_⟩,
    ⟨hasField_of_mem _ _ ?_, hasField_of_mem _ _ ?_, hasField_of_mem _ _ ?_⟩,
    ⟨hasField_of_mem _ _ ?_, hasField_of_mem _ _ ?_, hasField_of_mem _ _ ?_⟩,
    ⟨hasField_of_mem _ _ ?_, hasField_of_mem _ _ ?_, hasField_of_mem _ _ ?_⟩,
    ⟨hasField_of_mem _ _ ?_, hasField_of_mem _ _ ?_, ?_⟩⟩ <;>
    (simp [docKeys, addCrc, buildSensorDoc, buildGPSDoc, buildDeviceStatusDoc,
      buildCommandResponseDoc, mkErrorDoc]; try decide)

/-- C5 counterexample: from a freshly observed disconnect, the first main
cycle restarts advertising, but the second cycle — the state still
Disconnected and no client connected — does not restart it again, refuting
"re-announces availability on every main cycle". -/
theorem advertiseNotEveryCycle :
    (handleBluetoothReconnection (BTState.mk false true 7 false "" 23) true 0 ParseResult.err).advertised = true ∧
    (handleBluetoothReconnection (BTState.mk false true 7 false "" 23) true 0 ParseResult.err).state.deviceConnected = false ∧
    (handleBluetoothReconnection
      (handleBluetoothReconnection (BTState.mk false true 7 false "" 23) true 0 ParseResult.err).state
      true 0 ParseResult.err).advertised = false := by
  refine ⟨?_, ?_, ?_⟩ <;> rfl

/-- C5 (amended): while Disconnected, the Connection Lifecycle Manager
restarts advertising exactly once per disconnect, on the main cycle that
observes the disconnect edge (previously connected, now disconnected); on
subsequent cycles of the same disconnected span the edge is consumed and no
further re-advertise happens (the restarted advertising itself remains
active until a client connects); there is no retry budget or backoff. -/
theorem advertiseOnDisconnectEdge (s : BTState) (cfg : Bool) (now : Nat)
    (p : ParseResult) :
    (s.deviceConnected = false → s.oldDeviceConnected = true →
       (handleBluetoothReconnection s cfg now p).advertised = true ∧
       (handleBluetoothReconnection s cfg now p).state.oldDeviceConnected = false ∧
       (handleBluetoothReconnection s cfg now p).state.deviceConnected = false) ∧
    (s.deviceConnected = false → s.oldDeviceConnected = false →
       (handleBluetoothReconnection s cfg now p).advertised = false) := by
  constructor
  · intro hdc hold
    refine ⟨?_, ?_, ?_⟩ <;>
      simp [handleBluetoothReconnection, hdc, hold, processPreservesOld,
        processPreservesConnected]
  · intro hdc hold
    simp [handleBluetoothReconnection, hdc, hold]

/-- Witness for C5 (amended) at a concrete just-disconnected state. -/
theorem advertiseOnDisconnectEdge_witness :
    (handleBluetoothReconnection (BTState.mk false true 3 false "" 23) true 5 ParseResult.err).advertised = true :=
  ((advertiseOnDisconnectEdge (BTState.mk false true 3 false "" 23) true 5 ParseResult.err).1 rfl rfl).1

/-- C8: every reject path of the command processor — parse failure, missing
command field, unrecognized command code — emits exactly one Error message
(code "invalid data" for the parse failure, "invalid command" for the other
two), produces no success response, does not retain the bad input, and
leaves no pending command state. -/
theorem commandRejectOutcomes (s : BTState) (now : Nat) (v : Option String)
    (hcr : s.commandReceived = true) (hne : s.receivedCommand ≠ "")
    (hconn : s.deviceConnected = true) :
    (processBluetoothCommands s true now ParseResult.err =
       ({s with commandReceived := false,
                sequenceNumber := getNextSequenceNumber s.sequenceNumber,
                receivedCommand := ""},
        [mkErrorDoc BLE_ERROR_INVALID_DATA "Invalid JSON format"
           (getNextSequenceNumber s.sequenceNumber) now], false)) ∧
    (processBluetoothCommands s true now (ParseResult.ok none v) =
       ({s with commandReceived := false,
                sequenceNumber := getNextSequenceNumber s.sequenceNumber,
                receivedCommand := ""},
        [mkErrorDoc BLE_ERROR_INVALID_CMD "Missing command field"
           (getNextSequenceNumber s.sequenceNumber) now], false)) ∧
    (∀ c, commandName (c % 256) = none →
       processBluetoothCommands s true now (ParseResult.ok (some c) v) =
       ({s with commandReceived := false,
                sequenceNumber := getNextSequenceNumber s.sequenceNumber,
                receivedCommand := ""},
        [mkErrorDoc BLE_ERROR_INVALID_CMD "Unknown command type"
           (getNextSequenceNumber s.sequenceNumber) now], false)) := by
  have hlen : (s.receivedCommand.length == 0) = false := by
    rw [beq_eq_false_iff_ne]
    rw [Ne, string_length_eq_zero_iff]
    exact hne
  refine ⟨?_, ?_, ?_⟩
  · simp [processBluetoothCommands, sendErrorResponse, hcr, hlen, hconn]
  · simp [processBluetoothCommands, sendErrorResponse, hcr, hlen, hconn]
  · intro c hnone
    simp [processBluetoothCommands, sendErrorResponse, hcr, hlen, hconn, hnone]

/-- Witness for C8 at a concrete state and a parse failure. -/
theorem commandRejectOutcomes_witness :
    processBluetoothCommands (BTState.mk true false 0 true "x" 512) true 9 ParseResult.err =
      (BTState.mk true false 1 false "" 512,
       [mkErrorDoc BLE_ERROR_INVALID_DATA "Invalid JSON format" 1 9], false) := by
  have h := (commandRejectOutcomes (BTState.mk true false 0 true "x" 512) 9 none rfl
    (by decide) rfl).1
  simpa [getNextSequenceNumber, UINT32_MOD] using h

/-- C9: every recognized command whose processing does not end in an error
(all recognized codes except the terminal ResetDevice) yields exactly one
CommandResponse carrying the original numeric code, its human-readable name
and status "success"; in particular GetStatus yields the name "GET_STATUS"
and emits no DeviceStatus message itself. -/
theorem commandSuccessOutcomes (s : BTState) (now : Nat) (v : Option String)
    (c : Nat) (nm : String)
    (hcr : s.commandReceived = true) (hne : s.receivedCommand ≠ "")
    (hname : commandName (c % 256) = some nm) (hnr : c % 256 ≠ CMD_RESET_DEVICE) :
    (processBluetoothCommands s true now (ParseResult.ok (some c) v) =
      ({s with commandReceived := false,
               sequenceNumber := getNextSequenceNumber s.sequenceNumber,
               receivedCommand := ""},
       [(addCrc (buildCommandResponseDoc (c % 256) nm
           (getNextSequenceNumber s.sequenceNumber) now)).1], false)) ∧
    lookupEntry (addCrc (buildCommandResponseDoc (c % 256) nm
      (getNextSequenceNumber s.sequenceNumber) now)).1 "type"
      = some (JEntry.prim (JPrim.str "command_response")) ∧
    lookupEntry (addCrc (buildCommandResponseDoc (c % 256) nm
      (getNextSequenceNumber s.sequenceNumber) now)).1 "command"
      = some (JEntry.prim (JPrim.num (c % 256))) ∧
    lookupEntry (addCrc (buildCommandResponseDoc (c % 256) nm
      (getNextSequenceNumber s.sequenceNumber) now)).1 "command_name"
      = some (JEntry.prim (JPrim.str nm)) ∧
    lookupEntry (addCrc (buildCommandResponseDoc (c % 256) nm
      (getNextSequenceNumber s.sequenceNumber) now)).1 "status"
      = some (JEntry.prim (JPrim.str "success")) ∧
    lookupEntry (addCrc (buildCommandResponseDoc (c % 256) nm
      (getNextSequenceNumber s.sequenceNumber) now)).1 "type"
      ≠ some (JEntry.prim (JPrim.str "device_status")) ∧
    (c % 256 = CMD_GET_STATUS → nm = "GET_STATUS") := by
  have hlen : (s.receivedCommand.length == 0) = false := by
    rw [beq_eq_false_iff_ne]
    rw [Ne, string_length_eq_zero_iff]
    exact hne
  refine ⟨?_, ?_, ?_, ?_, ?_, ?_, ?_⟩
  · simp [processBluetoothCommands, hcr, hlen, hname, hnr]
  · simp [lookupEntry, addCrc, buildCommandResponseDoc]
  · simp [lookupEntry, addCrc, buildCommandResponseDoc]
  · simp [lookupEntry, addCrc, buildCommandResponseDoc]
  · simp [lookupEntry, addCrc, buildCommandResponseDoc]
  · simp [lookupEntry, addCrc, buildCommandResponseDoc]
  · intro hgs
    rw [hgs] at hname
    simp [commandName, CMD_GET_STATUS] at hname
    exact hname.symm

/-- Witness for C9: a concrete GetStatus command (`{"command":1}`) yields
exactly one CommandResponse document. -/
theorem commandSuccessOutcomes_witness :
    processBluetoothCommands (BTState.mk true false 0 true "x" 512) true 9
      (ParseResult.ok (some 1) none) =
      (BTState.mk true false 1 false "" 512,
       [(addCrc (buildCommandResponseDoc 1 "GET_STATUS" 1 9)).1], false) := by
  have h := (commandSuccessOutcomes (BTState.mk true false 0 true "x" 512) 9 none 1
    "GET_STATUS" rfl (by decide) (by decide) (by decide)).1
  simpa [getNextSequenceNumber, UINT32_MOD] using h

end Sentry
